import Mathlib

/-!
Verification of the Snowflake table-profiling orchestrator
(`metadata-ingestion/src/datahub/ingestion/source/snowflake/snowflake_profiler.py`).

The embedding translates `SnowflakeProfiler` into pure Lean functions:
Python dictionaries become association lists, optional integers become
`Option Nat` with Python truthiness made explicit, the mutable report
object becomes explicit state passing, and the generator `get_workunits`
becomes a function returning its accumulated state and emitted work units.
Floating-point percentage formatting (`f"{x:.8f}"`) is rendered with exact
rational arithmetic rounded to 8 decimal digits.
-/

namespace SnowflakeProfiler

/-- A `SnowflakeTable` / `BaseTable` descriptor: name, type string
(e.g. "EXTERNAL TABLE"), and an optional row-count estimate
(`rows_count: Optional[int]` in the source). -/
structure SnowflakeTable where
  name : String
  type : String
  rows_count : Option Nat
deriving Repr, DecidableEq

/-- A schema inside a `SnowflakeDatabase`: only the name is used by the profiler. -/
structure SnowflakeSchema where
  name : String
deriving Repr, DecidableEq

/-- A `SnowflakeDatabase`: name plus its list of schemas. -/
structure SnowflakeDatabase where
  name : String
  schemas : List SnowflakeSchema
deriving Repr, DecidableEq

/-- The profiling section of `SnowflakeV2Config` — the fields
`get_workunits` and `get_batch_kwargs` read:
`profile_external_tables`, `use_sampling`, `sample_size`, `limit`,
`max_workers`. `limit` is `Optional[int]`. -/
structure ProfilingConfig where
  profile_external_tables : Bool
  use_sampling : Bool
  sample_size : Nat
  limit : Option Nat
  max_workers : Nat
deriving Repr, DecidableEq

/-- The slice of `SnowflakeV2Config` the profiler reads: the profiling
sub-config, the mutable SQLAlchemy `options` mapping (an association list
of option name to numeric value), the result of `is_profiling_enabled()`,
and the stored connection credentials (opaque to this core, passed to the
Connection Provisioner). -/
structure Config where
  profiling : ProfilingConfig
  options : List (String × Nat)
  profiling_enabled : Bool
  credentials : String
deriving Repr, DecidableEq

/-- Python truthiness of an `Optional[int]`: `None` and `0` are falsy. -/
def natOptTruthy : Option Nat → Bool
  | none => false
  | some n => n != 0

/-- `str.upper` on ASCII strings: uppercase every character. Defined by
structural recursion over the character list so that it evaluates inside
the kernel (Lean's own `String.toUpper` is the same map). -/
def strUpper (s : String) : String :=
  String.mk (s.data.map Char.toUpper)

/-- Python truthiness of an `Optional[str]`: `None` and `""` are falsy. -/
def strOptTruthy : Option String → Bool
  | none => false
  | some s => s != ""

/-- `dict.setdefault k v`: insert `(k, v)` only when the key is absent. -/
def setdefault (opts : List (String × Nat)) (k : String) (v : Nat) :
    List (String × Nat) :=
  if opts.any (fun p => p.1 == k) then opts else opts ++ [(k, v)]

/-- Lookup of a key in an option mapping (first binding wins, as in a
Python dict where each key occurs once). -/
def lookupOpt (opts : List (String × Nat)) (k : String) : Option Nat :=
  (opts.find? (fun p => p.1 == k)).map (fun p => p.2)

/-- Left-pad a digit string with zeros to 8 characters. -/
def padZeros8 (s : String) : String :=
  String.mk (List.replicate (8 - s.length) '0') ++ s

/-- Render the rational `num / den` with exactly 8 digits after the
decimal point, rounding to nearest (half away from zero). Translated
from `f"{sample_pc:.8f}"` in `get_batch_kwargs`, with exact rational
arithmetic standing in for binary floating point. -/
def formatFixed8 (num den : Nat) : String :=
  let scaled := (2 * num * 100000000 + den) / (2 * den)
  toString (scaled / 100000000) ++ "." ++ padZeros8 (toString (scaled % 100000000))

/-- The custom sampling query built in `get_batch_kwargs`:
`select * from "db"."schema"."table" TABLESAMPLE (pc)` where `pc` is
`100 * sample_size / rows_count` rendered to 8 decimal digits. -/
def samplingSQL (db_name schema_name table_name : String)
    (sample_size rows : Nat) : String :=
  "select * from \"" ++ db_name ++ "\".\"" ++ schema_name ++ "\".\"" ++
    table_name ++ "\" TABLESAMPLE (" ++
    formatFixed8 (100 * sample_size) rows ++ ")"

/-- The batch kwargs mapping returned by `get_batch_kwargs`: the base
mapping from `super().get_batch_kwargs(...)` (supplied by the external
profiler-service collaborator and passed through unmodified), overridden
by the two Snowflake-specific keys `use_quoted_name` and `custom_sql`. -/
structure BatchKwargs where
  base : List (String × String)
  use_quoted_name : Bool
  custom_sql : Option String
deriving Repr, DecidableEq

/-- `SnowflakeProfiler.get_batch_kwargs`: computes the optional custom
sampling SQL (only when no limit is configured, sampling is enabled, the
row count is truthy and exceeds `sample_size`), and sets
`use_quoted_name` exactly when the table name differs from its
upper-cased form. `base` abstracts `super().get_batch_kwargs(...)`. -/
def get_batch_kwargs (base : List (String × String)) (cfg : Config)
    (table : SnowflakeTable) (schema_name db_name : String) : BatchKwargs :=
  let custom_sql : Option String :=
    if !natOptTruthy cfg.profiling.limit && cfg.profiling.use_sampling &&
        natOptTruthy table.rows_count &&
        decide (table.rows_count.getD 0 > cfg.profiling.sample_size) then
      some (samplingSQL db_name schema_name table.name
        cfg.profiling.sample_size (table.rows_count.getD 0))
    else
      none
  { base := base
    use_quoted_name := table.name != strUpper table.name
    custom_sql := custom_sql }

/-- A profiling request: the pretty display name reported for the table
and its batch kwargs. One request maps to exactly one table and is
immutable once built. -/
structure ProfileRequest where
  pretty_name : String
  batch_kwargs : BatchKwargs
deriving Repr, DecidableEq

/-- Modelled from the spec: `get_dataset_name` delegates to
`get_dataset_identifier` of `SnowflakeCommonMixin`, whose code is not part
of this fragment; the spec says only that the target identifier follows
the system-wide identifier-normalization rule over
(database, schema, table). We model it as the dotted fully-qualified
name. -/
def get_dataset_name (table_name schema_name db_name : String) : String :=
  db_name ++ "." ++ schema_name ++ "." ++ table_name

/-- Modelled from the spec: `GenericProfiler.get_profile_request` (the
Request Builder, section 4.3) is not part of this fragment. The spec
describes it as a pure composition that always yields a profiling
request carrying the target identifier and the batch parameters, with
the warehouse-specific overrides from `get_batch_kwargs`; skips come
only from the Eligibility Filter. The source guards its result with
`if profile_request is not None`, which we keep in the caller. -/
def get_profile_request (base : List (String × String)) (cfg : Config)
    (table : SnowflakeTable) (schema_name db_name : String) :
    Option ProfileRequest :=
  some
    { pretty_name := get_dataset_name table.name schema_name db_name
      batch_kwargs := get_batch_kwargs base cfg table schema_name db_name }

/-- The mutable state threaded through the Collect phase of
`get_workunits`: the pending `profile_requests` list, the per-schema skip
counters of `report.profiling_skipped_other` (one list entry per
increment, keyed by schema name, so the counter for schema `s` is
`skipped.count s`), the pretty names passed to
`report.report_entity_profiled`, and the info-level log lines. -/
structure CollectState where
  profile_requests : List ProfileRequest
  skipped : List String
  reported : List String
  logs : List String
deriving Repr, DecidableEq

/-- The empty state at the start of a profiling pass. -/
def CollectState.init : CollectState :=
  { profile_requests := [], skipped := [], reported := [], logs := [] }

/-- One iteration of the inner loop of `get_workunits` over a single
table: skip (counter increment plus info log) when the table is an
external table and `profile_external_tables` is off; otherwise build the
profile request and, when it is not `None`, report the entity and append
the request. -/
def collectStep (base : List (String × String)) (cfg : Config)
    (db_name schema_name : String) (st : CollectState)
    (table : SnowflakeTable) : CollectState :=
  if !cfg.profiling.profile_external_tables && table.type == "EXTERNAL TABLE" then
    { st with
      logs := st.logs ++
        ["Skipping profiling of external table " ++ db_name ++ "." ++
          schema_name ++ "." ++ table.name]
      skipped := st.skipped ++ [schema_name] }
  else
    match get_profile_request base cfg table schema_name db_name with
    | some r =>
      { st with
        reported := st.reported ++ [r.pretty_name]
        profile_requests := st.profile_requests ++ [r] }
    | none => st

/-- The Collect phase of `get_workunits`: the nested
`for schema in database.schemas: for table in db_tables[schema.name]`
loops. `db_tables` is the dictionary of per-schema table lists, modelled
as a total function (the source raises `KeyError` on a missing schema;
the claims quantify over snapshots where every schema is present). -/
def collect (base : List (String × String)) (cfg : Config)
    (database : SnowflakeDatabase)
    (db_tables : String → List SnowflakeTable) : CollectState :=
  database.schemas.foldl
    (fun st sch =>
      (db_tables sch.name).foldl
        (collectStep base cfg database.name sch.name) st)
    CollectState.init

/-- An opaque profiling result record, passed through unmodified. -/
structure MetadataWorkUnit where
  id : String
deriving Repr, DecidableEq

/-- `SnowflakeProfiler.get_workunits` for one database. `dispatch`
abstracts `generate_profile_workunits` (the external profiler service's
batch-execution entry point), receiving the pending request list, the
worker-pool size and the database name. The result records the config
after the `max_overflow` defaulting, the final Collect state, the
emitted work units, and whether `dispatch` was invoked (the source
returns before calling it when the request list is empty). -/
def get_workunits
    (dispatch : List ProfileRequest → Nat → String → List MetadataWorkUnit)
    (base : List (String × String)) (cfg : Config)
    (database : SnowflakeDatabase)
    (db_tables : String → List SnowflakeTable) :
    Config × CollectState × List MetadataWorkUnit × Bool :=
  let cfg2 :=
    if cfg.profiling_enabled then
      { cfg with
        options := setdefault cfg.options "max_overflow"
          cfg.profiling.max_workers }
    else cfg
  let st := collect base cfg2 database db_tables
  if st.profile_requests.length == 0 then
    (cfg2, st, [], false)
  else
    (cfg2, st, dispatch st.profile_requests cfg2.profiling.max_workers
      database.name, true)

/-- A live warehouse connection: the credentials it was opened with and
the statements executed on it so far, in order. -/
structure Connection where
  credentials : String
  executed : List String
deriving Repr, DecidableEq

/-- Modelled from the spec: `SnowflakeQuery.use_database` (in
`snowflake_query.py`, not part of this fragment) renders the
"use database" directive scoped to the given database name. -/
def use_database (db_name : String) : String :=
  "use database \"" ++ db_name ++ "\""

/-- Modelled from the spec: `config.get_connection()` (not part of this
fragment) establishes a warehouse session using the stored credentials;
no statement has been executed on the fresh connection. -/
def get_connection (cfg : Config) : Connection :=
  { credentials := cfg.credentials, executed := [] }

/-- `SnowflakeProfiler.callable_for_db_connection`: returns a connection
factory that opens a session via `config.get_connection()`, executes the
`use database` directive for `db_name` on it, and returns it. -/
def callable_for_db_connection (cfg : Config) (db_name : String) :
    Unit → Connection :=
  fun _ =>
    let conn := get_connection cfg
    { conn with executed := conn.executed ++ [use_database db_name] }

/-- The profiler instance built by `get_profiler_instance` on success:
the database it is scoped to and the connection obtained through the
engine whose creator is `callable_for_db_connection db_name`. -/
structure ProfilerInstance where
  db_name : String
  conn : Connection
deriving Repr, DecidableEq

/-- `SnowflakeProfiler.get_profiler_instance`: `assert db_name` fails
(raises `AssertionError`, modelled as `Except.error`) for a falsy
`db_name` — `None` (the default) or the empty string — before any
connection is attempted; otherwise it builds the engine with
`callable_for_db_connection` as creator and connects. -/
def get_profiler_instance (cfg : Config)
    (db_name : Option String := none) : Except String ProfilerInstance :=
  if strOptTruthy db_name then
    let name := db_name.getD ""
    Except.ok
      { db_name := name, conn := callable_for_db_connection cfg name () }
  else
    Except.error "AssertionError: db_name"

/-! Concrete fixtures used to instantiate the theorems. -/

/-- A profiling configuration matching the spec's worked example:
sampling enabled, sample size 10000, no fixed limit, 5 workers. -/
def sampleProfiling : ProfilingConfig :=
  { profile_external_tables := false
    use_sampling := true
    sample_size := 10000
    limit := none
    max_workers := 5 }

/-- A configuration with empty engine options and profiling enabled. -/
def sampleConfig : Config :=
  { profiling := sampleProfiling
    options := []
    profiling_enabled := true
    credentials := "creds" }

/-- The same configuration with a fixed result-row limit of 1000. -/
def limitConfig : Config :=
  { sampleConfig with profiling := { sampleProfiling with limit := some 1000 } }

/-- A configuration whose engine options already carry `max_overflow = 0`. -/
def overflowConfig : Config :=
  { sampleConfig with options := [("max_overflow", 0)] }

/-- An ordinary table with one million rows. -/
def sampleTable : SnowflakeTable :=
  { name := "T", type := "TABLE", rows_count := some 1000000 }

/-- An external table with no row-count estimate. -/
def externalTable : SnowflakeTable :=
  { name := "EXT", type := "EXTERNAL TABLE", rows_count := none }

/-- A table whose stored name is not upper-case. -/
def lowerTable : SnowflakeTable :=
  { name := "t_lower", type := "TABLE", rows_count := none }

/-- A database with a single schema. -/
def sampleDatabase : SnowflakeDatabase :=
  { name := "DB", schemas := [{ name := "SCH" }] }

/-- A database with no schemas at all. -/
def emptyDatabase : SnowflakeDatabase :=
  { name := "DB", schemas := [] }

/-- A concrete dispatch function standing in for the external profiler
service: it would emit one work unit if ever invoked. -/
def dispatchW : List ProfileRequest → Nat → String → List MetadataWorkUnit :=
  fun _ _ _ => [{ id := "WU" }]

/-! Helper lemmas. -/

/-- Each table processed by the Collect loop adds exactly one entry to
either the request list or the skip list. -/
lemma collectStep_accounts (base : List (String × String)) (cfg : Config)
    (db_name schema_name : String) (st : CollectState)
    (table : SnowflakeTable) :
    (collectStep base cfg db_name schema_name st table).profile_requests.length +
      (collectStep base cfg db_name schema_name st table).skipped.length =
      st.profile_requests.length + st.skipped.length + 1 := by
  unfold collectStep get_profile_request
  split <;> simp <;> omega

/-- Folding the Collect step over a table list adds one accounted entry
per table. -/
lemma collect_fold_accounts (base : List (String × String)) (cfg : Config)
    (db_name schema_name : String) (tables : List SnowflakeTable)
    (st : CollectState) :
    ((tables.foldl (collectStep base cfg db_name schema_name) st).profile_requests.length +
        (tables.foldl (collectStep base cfg db_name schema_name) st).skipped.length) =
      st.profile_requests.length + st.skipped.length + tables.length := by
  induction tables generalizing st with
  | nil => simp
  | cons t ts ih =>
    simp only [List.foldl_cons, List.length_cons]
    rw [ih, collectStep_accounts]
    omega

/-- Folding over the schema list adds one accounted entry per table of
every schema. -/
lemma collect_schemas_accounts (base : List (String × String)) (cfg : Config)
    (db_name : String) (db_tables : String → List SnowflakeTable)
    (schemas : List SnowflakeSchema) (st : CollectState) :
    ((schemas.foldl
        (fun s sch => (db_tables sch.name).foldl
          (collectStep base cfg db_name sch.name) s) st).profile_requests.length +
      (schemas.foldl
        (fun s sch => (db_tables sch.name).foldl
          (collectStep base cfg db_name sch.name) s) st).skipped.length) =
      st.profile_requests.length + st.skipped.length +
        (schemas.map (fun sch => (db_tables sch.name).length)).sum := by
  induction schemas generalizing st with
  | nil => simp
  | cons sch schs ih =>
    simp only [List.foldl_cons, List.map_cons, List.sum_cons]
    rw [ih, collect_fold_accounts]
    omega

/-- The Collect phase reads only the profiling sub-config, never the
engine options, so the `max_overflow` defaulting does not change it. -/
lemma collect_options_invariant (base : List (String × String))
    (cfg : Config) (o : List (String × Nat)) (database : SnowflakeDatabase)
    (db_tables : String → List SnowflakeTable) :
    collect base { cfg with options := o } database db_tables =
      collect base cfg database db_tables := rfl

/-- When the key is absent, `setdefault` makes it look up to the supplied
default value. -/
lemma lookupOpt_setdefault_absent (opts : List (String × Nat)) (k : String)
    (v : Nat) (h : opts.any (fun p => p.1 == k) = false) :
    lookupOpt (setdefault opts k v) k = some v := by
  have h1 : opts.find? (fun p => p.1 == k) = none := by
    rw [List.find?_eq_none]
    intro x hx
    have h2 := (List.any_eq_false.mp h) x hx
    simpa using h2
  simp [setdefault, h, lookupOpt, List.find?_append, h1]

/-! Claim theorems. -/

/-- C1: every table of the catalog snapshot processed by `get_workunits`
yields exactly one of a pending profiling request or a recorded skip
(a per-schema skip-counter increment): the number of requests plus the
number of skip increments equals the total number of tables, so no table
is silently dropped. -/
theorem claimC1_every_table_accounted (base : List (String × String))
    (cfg : Config) (database : SnowflakeDatabase)
    (db_tables : String → List SnowflakeTable) :
    (collect base cfg database db_tables).profile_requests.length +
        (collect base cfg database db_tables).skipped.length =
      (database.schemas.map (fun sch => (db_tables sch.name).length)).sum := by
  unfold collect
  rw [collect_schemas_accounts]
  simp [CollectState.init]

/-- C2: for a table with a known row count strictly above `sample_size`,
with sampling on and no fixed limit, the batch kwargs carry a custom SQL
clause sampling the fully qualified, double-quote-delimited table at the
fraction `100 * sample_size / row_count` rendered to 8 decimal digits. -/
theorem claimC2_sampling_fraction (base : List (String × String))
    (cfg : Config) (table : SnowflakeTable) (schema_name db_name : String)
    (rc : Nat) (hrows : table.rows_count = some rc)
    (hgt : cfg.profiling.sample_size < rc)
    (hsamp : cfg.profiling.use_sampling = true)
    (hlimit : natOptTruthy cfg.profiling.limit = false) :
    (get_batch_kwargs base cfg table schema_name db_name).custom_sql =
      some ("select * from \"" ++ db_name ++ "\".\"" ++ schema_name ++
        "\".\"" ++ table.name ++ "\" TABLESAMPLE (" ++
        formatFixed8 (100 * cfg.profiling.sample_size) rc ++ ")") := by
  have hne : rc ≠ 0 := by omega
  simp [get_batch_kwargs, samplingSQL, hrows, hsamp, natOptTruthy, hne, hgt]
  exact hlimit

/-- Witness for C2 at the spec's worked example: row count 1000000 and
sample size 10000 give the fraction 1.00000000. -/
theorem claimC2_sampling_fraction_witness :
    (get_batch_kwargs [] sampleConfig sampleTable "SCH" "DB").custom_sql =
      some "select * from \"DB\".\"SCH\".\"T\" TABLESAMPLE (1.00000000)" := by
  have h := claimC2_sampling_fraction [] sampleConfig sampleTable "SCH" "DB"
    1000000 rfl (by decide) rfl rfl
  rw [h]
  rfl

/-- C3: whenever a fixed result-row limit is configured (a truthy
`profiling.limit`), the batch kwargs carry no custom sampling clause,
whatever the row count and the `use_sampling` setting. -/
theorem claimC3_limit_disables_sampling (base : List (String × String))
    (cfg : Config) (table : SnowflakeTable) (schema_name db_name : String)
    (hlimit : natOptTruthy cfg.profiling.limit = true) :
    (get_batch_kwargs base cfg table schema_name db_name).custom_sql =
      none := by
  simp [get_batch_kwargs, hlimit]

/-- Witness for C3: a limit of 1000 suppresses sampling even for a
million-row table with sampling enabled. -/
theorem claimC3_limit_disables_sampling_witness :
    (get_batch_kwargs [] limitConfig sampleTable "SCH" "DB").custom_sql =
      none :=
  claimC3_limit_disables_sampling [] limitConfig sampleTable "SCH" "DB" rfl

/-- C5: the batch kwargs set `use_quoted_name` exactly when the table's
stored name differs from its upper-cased form; an already upper-case
name gets the flag false. -/
theorem claimC5_use_quoted_name (base : List (String × String))
    (cfg : Config) (table : SnowflakeTable) (schema_name db_name : String) :
    ((get_batch_kwargs base cfg table schema_name db_name).use_quoted_name =
        true ↔ table.name ≠ strUpper table.name) ∧
      (table.name = strUpper table.name →
        (get_batch_kwargs base cfg table schema_name db_name).use_quoted_name =
          false) := by
  constructor
  · simp [get_batch_kwargs]
  · intro h
    simp [get_batch_kwargs]
    exact h

/-- Witness for C5 at the spec's examples: `t_lower` gets the quoting
flag, the already upper-case `T` does not. -/
theorem claimC5_use_quoted_name_witness :
    (get_batch_kwargs [] sampleConfig lowerTable "SCH" "DB").use_quoted_name =
        true ∧
      (get_batch_kwargs [] sampleConfig sampleTable "SCH" "DB").use_quoted_name =
        false := by
  constructor
  · exact (claimC5_use_quoted_name [] sampleConfig lowerTable "SCH" "DB").1.mpr
      (by decide)
  · exact (claimC5_use_quoted_name [] sampleConfig sampleTable "SCH" "DB").2
      (by decide)

/-- C8: when no sampling plan applies — missing or zero row count, row
count not above `sample_size`, sampling disabled, or a fixed limit
configured — the custom sampling clause is left unset. -/
theorem claimC8_no_sampling_plan (base : List (String × String))
    (cfg : Config) (table : SnowflakeTable) (schema_name db_name : String)
    (h : natOptTruthy cfg.profiling.limit = true ∨
      cfg.profiling.use_sampling = false ∨
      natOptTruthy table.rows_count = false ∨
      table.rows_count.getD 0 ≤ cfg.profiling.sample_size) :
    (get_batch_kwargs base cfg table schema_name db_name).custom_sql =
      none := by
  rcases h with h | h | h | h
  · simp [get_batch_kwargs, h]
  · simp [get_batch_kwargs, h]
  · simp [get_batch_kwargs, h]
  · have hlt : decide (cfg.profiling.sample_size <
        table.rows_count.getD 0) = false := by
      simp
      omega
    simp [get_batch_kwargs, hlt]

/-- Witness for C8: a table with no row-count estimate is profiled in
full — no sampling clause — even with sampling enabled and no limit. -/
theorem claimC8_no_sampling_plan_witness :
    (get_batch_kwargs [] sampleConfig externalTable "SCH" "DB").custom_sql =
      none :=
  claimC8_no_sampling_plan [] sampleConfig externalTable "SCH" "DB"
    (Or.inr (Or.inr (Or.inl rfl)))

/-- C4: an external table under a configuration that disallows profiling
external tables is skipped: no request is built, the per-schema skip
counter increments by exactly 1, and the decision is logged. -/
theorem claimC4_external_table_skipped (base : List (String × String))
    (cfg : Config) (db_name schema_name : String) (st : CollectState)
    (table : SnowflakeTable) (hext : table.type = "EXTERNAL TABLE")
    (hcfg : cfg.profiling.profile_external_tables = false) :
    (collectStep base cfg db_name schema_name st table).profile_requests =
        st.profile_requests ∧
      (collectStep base cfg db_name schema_name st table).skipped.count
          schema_name = st.skipped.count schema_name + 1 ∧
      (collectStep base cfg db_name schema_name st table).logs =
        st.logs ++ ["Skipping profiling of external table " ++ db_name ++
          "." ++ schema_name ++ "." ++ table.name] := by
  simp [collectStep, hext, hcfg, List.count_append]

/-- Witness for C4: one external table processed from the empty state
leaves no request, one skip recorded for its schema, and the log line. -/
theorem claimC4_external_table_skipped_witness :
    (collectStep [] sampleConfig "DB" "SCH" CollectState.init
        externalTable).profile_requests = [] ∧
      (collectStep [] sampleConfig "DB" "SCH" CollectState.init
        externalTable).skipped.count "SCH" = 1 ∧
      (collectStep [] sampleConfig "DB" "SCH" CollectState.init
        externalTable).logs =
        ["Skipping profiling of external table DB.SCH.EXT"] := by
  have h := claimC4_external_table_skipped [] sampleConfig "DB" "SCH"
    CollectState.init externalTable rfl rfl
  simpa [CollectState.init] using h

/-- C6: when the Collect phase produces an empty pending-request list,
`get_workunits` yields zero work units and never invokes the dispatch
entry point. -/
theorem claimC6_empty_requests_no_dispatch
    (dispatch : List ProfileRequest → Nat → String → List MetadataWorkUnit)
    (base : List (String × String)) (cfg : Config)
    (database : SnowflakeDatabase)
    (db_tables : String → List SnowflakeTable)
    (h : (collect base cfg database db_tables).profile_requests = []) :
    (get_workunits dispatch base cfg database db_tables).2.2.1 = [] ∧
      (get_workunits dispatch base cfg database db_tables).2.2.2 = false := by
  have hc : collect base
      (if cfg.profiling_enabled then
        { cfg with
          options := setdefault cfg.options "max_overflow"
            cfg.profiling.max_workers }
      else cfg) database db_tables =
      collect base cfg database db_tables := by
    by_cases hp : cfg.profiling_enabled
    · rw [if_pos hp]
      exact collect_options_invariant base cfg _ database db_tables
    · rw [if_neg hp]
  simp only [get_workunits, hc, h]
  simp

/-- Witness for C6: an empty catalog yields no work units and no
dispatch, even though the dispatch function would emit one. -/
theorem claimC6_empty_requests_no_dispatch_witness :
    (get_workunits dispatchW [] sampleConfig emptyDatabase
        (fun _ => [])).2.2.1 = [] ∧
      (get_workunits dispatchW [] sampleConfig emptyDatabase
        (fun _ => [])).2.2.2 = false :=
  claimC6_empty_requests_no_dispatch dispatchW [] sampleConfig emptyDatabase
    (fun _ => []) rfl

/-- C7 counterexample: with profiling enabled, engine options already
holding `max_overflow = 0`, and `max_workers = 5`, `get_workunits` leaves
`max_overflow` at 0 — strictly below the worker-pool concurrency — because
the source only calls `setdefault`, which never overwrites an existing
value. -/
theorem claimC7_overflow_counterexample :
    overflowConfig.profiling_enabled = true ∧
      lookupOpt (get_workunits dispatchW [] overflowConfig sampleDatabase
        (fun _ => [])).1.options "max_overflow" = some 0 ∧
      0 < overflowConfig.profiling.max_workers := by
  refine ⟨rfl, rfl, ?_⟩
  decide

/-- C7 as amended: whenever profiling runs and the engine options do not
already contain a `max_overflow` entry, `get_workunits` sets it to
exactly `profiling.max_workers` (hence at least the worker-pool
concurrency); a pre-existing entry is left unchanged. -/
theorem claimC7_overflow_default
    (dispatch : List ProfileRequest → Nat → String → List MetadataWorkUnit)
    (base : List (String × String)) (cfg : Config)
    (database : SnowflakeDatabase)
    (db_tables : String → List SnowflakeTable)
    (hp : cfg.profiling_enabled = true)
    (habs : cfg.options.any (fun p => p.1 == "max_overflow") = false) :
    lookupOpt (get_workunits dispatch base cfg database db_tables).1.options
      "max_overflow" = some cfg.profiling.max_workers := by
  simp only [get_workunits, hp, if_true]
  split
  · exact lookupOpt_setdefault_absent cfg.options "max_overflow"
      cfg.profiling.max_workers habs
  · exact lookupOpt_setdefault_absent cfg.options "max_overflow"
      cfg.profiling.max_workers habs

/-- Witness for C7 as amended: with no pre-existing `max_overflow` the
option is defaulted to the configured 5 workers. -/
theorem claimC7_overflow_default_witness :
    lookupOpt (get_workunits dispatchW [] sampleConfig sampleDatabase
      (fun _ => [])).1.options "max_overflow" =
      some sampleConfig.profiling.max_workers :=
  claimC7_overflow_default dispatchW [] sampleConfig sampleDatabase
    (fun _ => []) rfl rfl

/-- C9: the connection factory returned by `callable_for_db_connection`
opens a session with the stored credentials and has executed exactly the
`use database` directive for the requested database when it returns the
connection. -/
theorem claimC9_connection_scoped (cfg : Config) (db_name : String) :
    callable_for_db_connection cfg db_name () =
      { credentials := cfg.credentials
        executed := [use_database db_name] } := rfl

/-- C10: `get_profiler_instance` asserts a truthy database name: for a
falsy `db_name` — in particular the default `None` — it fails with an
assertion error and never builds a profiler instance. -/
theorem claimC10_assert_db_name (cfg : Config) (db_name : Option String)
    (h : strOptTruthy db_name = false) :
    get_profiler_instance cfg db_name =
      Except.error "AssertionError: db_name" := by
  simp [get_profiler_instance, h]

/-- Witness for C10: the default `None` database name fails the
assertion. -/
theorem claimC10_assert_db_name_witness :
    get_profiler_instance sampleConfig none =
      Except.error "AssertionError: db_name" :=
  claimC10_assert_db_name sampleConfig none rfl

end SnowflakeProfiler
